import Mathlib

/-!
Verification development for the Snyk SAST audit tool, modelling the API
client and pagination/retry/error-normalization layer found in
`src/snyk_sast_tool/core/api_client.py` (class `SnykClient`).

The embedding is shallow: Python dictionaries parsed from JSON become the
inductive `JVal`; the `requests` transport is replaced by an explicit
`Server` function that maps (server state, request) to an outcome, so that
the number and order of HTTP requests, and the sleeps performed between
retries, are observable in a trace.  Python exceptions become the `PyErr`
type threaded through an `Except`-based state monad `M`.

Conventions, noted once here:
  * Strings are modelled as `List Char`.  Messages built by Python
    f-strings are modelled by list concatenation; decorative quote
    characters around interpolated identifiers are elided, and text
    produced by library internals (`str` of a `requests` exception, of an
    `AttributeError`, ...) is abstracted by fixed stand-in texts, since no
    code path of the client inspects those texts.
  * Console output (`rich` printing) is not modelled: it carries no data
    back to any caller.
  * HTTP headers are not modelled except for `Retry-After`, which is kept,
    already parsed, on the response record.
  * Sleep durations are recorded in seconds as rationals (the pagination
    throttle sleeps 0.1 s).
-/

/-- A parsed JSON value, as handed around by the Python client after
`response.json()`. -/
inductive JVal where
  | jnull
  | jbool (b : Bool)
  | jstr (s : List Char)
  | jnum (n : Int)
  | jarr (xs : List JVal)
  | jobj (fields : List (List Char × JVal))

mutual

/-- Structural equality on `JVal`, mirroring Python `==` on parsed JSON
values of like types (cross-type comparisons yield `false`; the only use in
the client compares against a string literal). -/
def JVal.beq : JVal → JVal → Bool
  | .jnull, .jnull => true
  | .jbool a, .jbool b => a == b
  | .jstr a, .jstr b => a == b
  | .jnum a, .jnum b => a == b
  | .jarr a, .jarr b => JVal.beqList a b
  | .jobj a, .jobj b => JVal.beqFields a b
  | _, _ => false

/-- Elementwise equality of JSON arrays. -/
def JVal.beqList : List JVal → List JVal → Bool
  | [], [] => true
  | a :: as, b :: bs => JVal.beq a b && JVal.beqList as bs
  | _, _ => false

/-- Fieldwise equality of JSON objects (order-sensitive, as sufficient for
the comparisons the client performs). -/
def JVal.beqFields : List (List Char × JVal) → List (List Char × JVal) → Bool
  | [], [] => true
  | (k1, v1) :: as, (k2, v2) :: bs => k1 == k2 && JVal.beq v1 v2 && JVal.beqFields as bs
  | _, _ => false

end

instance : BEq JVal := ⟨JVal.beq⟩

/-- Python exceptions that can cross the boundaries modelled here.
`snyk` is `SnykAPIError`; its `isRateLimit` flag marks the subclass
`RateLimitExceededError` (so a handler for `SnykAPIError` catches both,
while a handler for `RateLimitExceededError` catches only the flagged
ones).  The remaining constructors are Python builtin exceptions raised by
operations on ill-shaped data; none of them is a `SnykAPIError`, so the
client's `except SnykAPIError` handlers do not catch them. -/
inductive PyErr where
  | snyk (msg : List Char) (status : Option Nat) (isRateLimit : Bool)
  | attrError
  | typeError
  | keyError
  | indexError
  | valueError (s : List Char)

/-- Prefix test on character lists (structured so that an empty pattern
is a prefix of anything by the first equation alone). -/
def lcPrefixOf : List Char → List Char → Bool
  | [], _ => true
  | a :: as, s =>
    match s with
    | [] => false
    | b :: bs => a == b && lcPrefixOf as bs

/-- Substring test: Python `pat in s` on strings. -/
def containsSub (pat s : List Char) : Bool :=
  s.tails.any (fun t => lcPrefixOf pat t)

/-- Python `s.lower()`. -/
def lowerStr (s : List Char) : List Char :=
  s.map Char.toLower

/-- Python `s.lstrip(c)` for a single strip character. -/
def lstripChar (c : Char) (s : List Char) : List Char :=
  s.dropWhile (fun x => x == c)

/-- Python `s.startswith(pre)`. -/
def pyStartsWith (s pre : List Char) : Bool :=
  lcPrefixOf pre s

/-- Python truthiness of a JSON value (used by `if links['next']:` and by
the settings pre-checks). -/
def truthy : JVal → Bool
  | .jnull => false
  | .jbool b => b
  | .jstr s => !s.isEmpty
  | .jnum n => n != 0
  | .jarr xs => !xs.isEmpty
  | .jobj fs => !fs.isEmpty

/-- Key lookup on a JSON object, `none` on other values or a missing key. -/
def JVal.getKey : JVal → List Char → Option JVal
  | .jobj fs, k => fs.lookup k
  | _, _ => none

/-- Python `x.get(k, d)`: dictionary lookup with a default, raising
`AttributeError` when `x` is not a dictionary. -/
def pyGet (x : JVal) (k : List Char) (d : JVal) : Except PyErr JVal :=
  match x with
  | .jobj fs =>
    match fs.lookup k with
    | some v => .ok v
    | none => .ok d
  | _ => .error PyErr.attrError

/-- Python `k in x` for a string `k`: key membership on dictionaries,
element membership on lists, substring test on strings, `TypeError`
otherwise. -/
def pyContains (x : JVal) (k : List Char) : Except PyErr Bool :=
  match x with
  | .jobj fs => .ok (fs.lookup k).isSome
  | .jarr xs => .ok (xs.contains (.jstr k))
  | .jstr s => .ok (containsSub k s)
  | _ => .error PyErr.typeError

/-- Python `x[k]` for a string key `k`: only dictionaries support it;
subscripting a list or a string with a string key is a `TypeError`. -/
def pySubscript (x : JVal) (k : List Char) : Except PyErr JVal :=
  match x with
  | .jobj fs =>
    match fs.lookup k with
    | some v => .ok v
    | none => .error PyErr.keyError
  | _ => .error PyErr.typeError

/-- Python iteration over a JSON value: lists yield elements, strings yield
one-character strings, dictionaries yield their keys; other values raise
`TypeError`.  Used for `list.extend(batch)` and `for project in batch`. -/
def pyIter : JVal → Except PyErr (List JVal)
  | .jarr xs => .ok xs
  | .jstr s => .ok (s.map (fun c => .jstr [c]))
  | .jobj fs => .ok (fs.map (fun kv => .jstr kv.1))
  | _ => .error PyErr.typeError

/-- Python `str(v)` of a parsed JSON value, as interpolated into f-strings.
Containers are abstracted by stand-in texts (no client code path inspects
the rendering of a container). -/
def pyStr : JVal → List Char
  | .jstr s => s
  | .jbool true => "True".data
  | .jbool false => "False".data
  | .jnull => "None".data
  | .jnum n => (toString n).data
  | .jarr _ => "<list>".data
  | .jobj _ => "<dict>".data

/-- Lookup with default on the plain Python dictionaries the client builds
itself (settings records), modelled as association lists. -/
def dictGetD (m : List (List Char × JVal)) (k : List Char) (d : JVal) : JVal :=
  match m.lookup k with
  | some v => v
  | none => d

/-- An HTTP request as issued by the client: method, absolute URL and the
optional JSON payload.  (Headers are not modelled; see the header note at
the top of the file.) -/
structure Request where
  method : List Char
  url : List Char
  payload : Option JVal

/-- An HTTP response: status code, the parsed `Retry-After` header when
present, and the parsed JSON body — `none` models a body on which
`response.json()` raises. -/
structure HttpResponse where
  status : Nat
  retryAfter : Option Nat
  body : Option JVal

/-- Outcome of one attempt to send a request: a response, or one of the
two `requests` exception classes distinguished by `_make_request`
(`ConnectionError`/`Timeout` versus other `RequestException`s).  The
carried text models `str(e)` of the underlying exception. -/
inductive NetOutcome where
  | resp (r : HttpResponse)
  | connError (msg : List Char)
  | reqError (msg : List Char)

/-- A mock vendor: maps server state and request to an outcome and the next
server state.  Claims about request counts quantify over these. -/
def Server (σ : Type) : Type :=
  σ → Request → NetOutcome × σ

/-- State threaded through a run: the server state plus the observable
trace (requests issued, in order, and sleeps performed, in seconds). -/
structure St (σ : Type) where
  srvState : σ
  reqs : List Request
  sleeps : List Rat

/-- The effect monad of the embedding: state passing plus Python
exceptions. -/
def M (σ : Type) (α : Type) : Type :=
  St σ → Except PyErr α × St σ

instance : Monad (M σ) where
  pure a := fun st => (Except.ok a, st)
  bind x f := fun st =>
    match x st with
    | (Except.ok a, st1) => f a st1
    | (Except.error e, st1) => (Except.error e, st1)

/-- Raise a Python exception. -/
def throwErr (e : PyErr) : M σ α :=
  fun st => (.error e, st)

/-- Lift a pure fallible computation into the monad. -/
def liftExc (x : Except PyErr α) : M σ α :=
  fun st => (x, st)

/-- Python `try: act except SnykAPIError as e: handler e` — the handler
sees the message, status and rate-limit flag; other exceptions pass
through. -/
def catchSnyk (act : M σ α) (handler : List Char → Option Nat → Bool → M σ α) : M σ α :=
  fun st =>
    match act st with
    | (.error (.snyk m s rl), st1) => handler m s rl st1
    | other => other

/-- Issue one request to the server, logging it in the trace. -/
def issueRequest (srv : Server σ) (req : Request) : M σ NetOutcome :=
  fun st =>
    let os := srv st.srvState req
    (.ok os.1, { st with srvState := os.2, reqs := st.reqs ++ [req] })

/-- Record a sleep of the given duration (seconds). -/
def sleepFor (d : Rat) : M σ Unit :=
  fun st => (.ok (), { st with sleeps := st.sleeps ++ [d] })

/-- Text of `SnykAPIError` raised when connection/timeout retries are
exhausted: `Connection failed after {max_retries} retries: {str(e)}`. -/
def connFailMsg (maxRetries : Nat) (e : List Char) : List Char :=
  ("Connection failed after ").data ++ (toString maxRetries).data ++ (" retries: ").data ++ e

/-- Text of `SnykAPIError` raised when other request-exception retries are
exhausted: `Request failed after {max_retries} retries: {str(e)}`. -/
def reqFailMsg (maxRetries : Nat) (e : List Char) : List Char :=
  ("Request failed after ").data ++ (toString maxRetries).data ++ (" retries: ").data ++ e

/-- The retry loop of `SnykClient._make_request` (api_client.py lines
92-120).  The first pattern argument is the number of attempts still
allowed after the current one (`max_retries - attempt` in the Python
loop), the second the current exponential-backoff delay.  The Python
`for attempt in range(max_retries + 1)` loop tests `attempt <
max_retries` (resp. `attempt == max_retries`) inside each failure branch;
here that test is hoisted into the two top-level cases, with identical
semantics.  On a 429 response with attempts left it sleeps for the
`Retry-After` header value (defaulting to the current delay), doubles the
delay and retries; on the last attempt the 429 response is returned
as-is.  On a connection error or timeout it sleeps `retryDelay` and
retries, raising `SnykAPIError` once attempts are exhausted; likewise for
other request exceptions with a different message. -/
def mrLoop (srv : Server σ) (method url : List Char) (payload : Option JVal)
    (maxRetries : Nat) : Nat → Nat → M σ HttpResponse
  | 0, _retryDelay => fun st =>
    let os := srv st.srvState ⟨method, url, payload⟩
    (match os.1 with
      | .resp r => Except.ok r
      | .connError e => Except.error (.snyk (connFailMsg maxRetries e) none false)
      | .reqError e => Except.error (.snyk (reqFailMsg maxRetries e) none false),
     ⟨os.2, st.reqs ++ [⟨method, url, payload⟩], st.sleeps⟩)
  | n + 1, retryDelay => fun st =>
    let os := srv st.srvState ⟨method, url, payload⟩
    match os.1 with
    | .resp r =>
      if r.status == 429 then
        mrLoop srv method url payload maxRetries n (retryDelay * 2)
          ⟨os.2, st.reqs ++ [⟨method, url, payload⟩],
            st.sleeps ++ [((r.retryAfter.getD retryDelay : Nat) : Rat)]⟩
      else (Except.ok r, ⟨os.2, st.reqs ++ [⟨method, url, payload⟩], st.sleeps⟩)
    | .connError _e =>
      mrLoop srv method url payload maxRetries n (retryDelay * 2)
        ⟨os.2, st.reqs ++ [⟨method, url, payload⟩], st.sleeps ++ [((retryDelay : Nat) : Rat)]⟩
    | .reqError _e =>
      mrLoop srv method url payload maxRetries n (retryDelay * 2)
        ⟨os.2, st.reqs ++ [⟨method, url, payload⟩], st.sleeps ++ [((retryDelay : Nat) : Rat)]⟩

/-- Model of `SnykClient._make_request` with its default `max_retries = 3` (one
initial attempt plus up to three retries) and initial delay 1 s. -/
def makeRequest (srv : Server σ) (method url : List Char) (payload : Option JVal) :
    M σ HttpResponse :=
  mrLoop srv method url payload 3 3 1

/-- HTTP method and JSON key constants. -/
def getM : List Char := "GET".data

/-- The PATCH method. -/
def patchM : List Char := "PATCH".data

/-- The DELETE method. -/
def deleteM : List Char := "DELETE".data

/-- Envelope key `data`. -/
def dataKey : List Char := "data".data

/-- Envelope key `links`. -/
def linksKey : List Char := "links".data

/-- Pagination key `next`. -/
def nextKey : List Char := "next".data

/-- Envelope key `attributes`. -/
def attrKey : List Char := "attributes".data

/-- Error body key `message`. -/
def messageKey : List Char := "message".data

/-- Error body key `errors`. -/
def errorsKey : List Char := "errors".data

/-- Error item key `detail`. -/
def detailKey : List Char := "detail".data

/-- Key `status`, used both in error items and in project attributes. -/
def statusKey : List Char := "status".data

/-- Settings key `sast_enabled`. -/
def seKey : List Char := "sast_enabled".data

/-- Settings key `sast_autofix_enabled`. -/
def safKey : List Char := "sast_autofix_enabled".data

/-- Settings key `sast_autofix_pr_enabled`. -/
def safpKey : List Char := "sast_autofix_pr_enabled".data

/-- Project key `id`. -/
def idKey : List Char := "id".data

/-- Project attribute key `name`. -/
def nameKey : List Char := "name".data

/-- Project attribute key `created`. -/
def createdKey : List Char := "created".data

/-- Project record key `org_id`. -/
def orgIdKey : List Char := "org_id".data

/-- Project attribute key `type`. -/
def typeKey : List Char := "type".data

/-- Payload key `type` value for settings PATCHes. -/
def sastSettingsStr : List Char := "sast_settings".data

/-- The project type retained by the gateway. -/
def sastStr : List Char := "sast".data

/-- The pinned REST API version (`SnykClient.api_version`). -/
def apiVersion : List Char := "2024-10-15".data

/-- Host part of the vendor base URLs. -/
def hostStr : List Char := "https://api.snyk.io".data

/-- The REST base (`SnykClient.api_rest_base`). -/
def apiRestBase : List Char := "https://api.snyk.io/rest".data

/-- The REST base with a trailing separator, as used when a bare relative
cursor is appended. -/
def restBaseSlash : List Char := "https://api.snyk.io/rest/".data

/-- Prefix `/rest/` tested on relative cursors. -/
def restSlash : List Char := "/rest/".data

/-- A single path separator. -/
def slashStr : List Char := "/".data

/-- Absolute-URL prefix `http://`. -/
def httpPre : List Char := "http://".data

/-- Absolute-URL prefix `https://`. -/
def httpsPre : List Char := "https://".data

/-- Seed URL of the organizations listing
(`{rest}/orgs?version={V}&group_id={gid}&limit=100`). -/
def orgsSeedUrl (gid : List Char) : List Char :=
  apiRestBase ++ ("/orgs?version=").data ++ apiVersion ++ ("&group_id=").data ++ gid
    ++ ("&limit=100").data

/-- URL of the per-organization SAST settings resource. -/
def settingsUrl (oid : List Char) : List Char :=
  apiRestBase ++ ("/orgs/").data ++ oid ++ ("/settings/sast?version=").data ++ apiVersion

/-- Seed URL of the per-organization projects listing. -/
def projectsUrl (oid : List Char) : List Char :=
  restBaseSlash ++ ("orgs/").data ++ oid ++ ("/projects?version=").data ++ apiVersion
    ++ ("&limit=100").data

/-- URL of a project resource (DELETE target). -/
def projectUrl (oid pid : List Char) : List Char :=
  apiRestBase ++ ("/orgs/").data ++ oid ++ ("/projects/").data ++ pid
    ++ ("?version=").data ++ apiVersion

/-- Message of `RateLimitExceededError`. -/
def rateLimitMsg (n : Nat) : List Char :=
  ("Rate limit exceeded. Please wait ").data ++ (toString n).data
    ++ (" seconds before retrying.").data

/-- Prefix of every `SnykAPIError` raised by `_handle_response`. -/
def apiFailPre : List Char := "API request failed: ".data

/-- Stand-in for `str(e)` of a `requests.HTTPError` (the exact rendering of
the library text is irrelevant to every code path). -/
def httpErrText (status : Nat) : List Char :=
  (toString status).data ++ (" Error for url").data

/-- Stand-in for `str(e)` of a JSON decoding error raised by
`response.json()` on an unparsable 2xx body. -/
def jsonDecodeText : List Char :=
  "Expecting value: line 1 column 1 (char 0)".data

/-- Default text for an error item without `detail`. -/
def unknownErrStr : List Char := "Unknown error".data

/-- Default text for an error item without `status`. -/
def naStr : List Char := "N/A".data

/-- One joined error item:
`{err.get('detail', 'Unknown error')} (status: {err.get('status', 'N/A')})`. -/
def errJoinOne (err : JVal) : Except PyErr (List Char) := do
  let d ← pyGet err detailKey (.jstr unknownErrStr)
  let s ← pyGet err statusKey (.jstr naStr)
  pure (pyStr d ++ (" (status: ").data ++ pyStr s ++ (")").data)

/-- Python `"; ".join(...)` over the error items, raising `AttributeError` when an
item is not a dictionary (the Python generator would). -/
def joinErrs : List JVal → Except PyErr (List Char)
  | [] => .ok []
  | [e] => errJoinOne e
  | e :: rest => do
    let a ← errJoinOne e
    let b ← joinErrs rest
    pure (a ++ ("; ").data ++ b)

/-- Model of `SnykClient._handle_response` (api_client.py lines 39-66).
`raise_for_status` raises for 4xx/5xx; a 429 becomes
`RateLimitExceededError` carrying the advised wait; other HTTP errors
become `SnykAPIError` whose message embeds the vendor `message` or the
joined `errors` details; a 204 yields `None` (here `none`); otherwise the
parsed JSON body is returned, an unparsable body becoming a `SnykAPIError`
without a status code. -/
def handleResponse (r : HttpResponse) : Except PyErr (Option JVal) :=
  if 400 ≤ r.status ∧ r.status < 600 then
    if r.status == 429 then
      .error (.snyk (rateLimitMsg (r.retryAfter.getD 60)) (some 429) true)
    else
      match r.body with
      | none => .error (.snyk (apiFailPre ++ httpErrText r.status) (some r.status) false)
      | some errData => do
        let m ← pyGet errData messageKey (.jstr (httpErrText r.status))
        let emsg ← (match errData.getKey errorsKey with
          | some (.jarr errs) => joinErrs errs
          | some _ => Except.ok (pyStr m)
          | none => Except.ok (pyStr m))
        Except.error (.snyk (apiFailPre ++ emsg) (some r.status) false)
  else if r.status == 204 then .ok none
  else
    match r.body with
    | some j => .ok (some j)
    | none => .error (.snyk (apiFailPre ++ jsonDecodeText) none false)

/-- Cursor normalization from `_process_paginated_response` (api_client.py
lines 144-153): a cursor starting with `/` gets the host prepended (the
source distinguishes `/rest/`-prefixed paths but treats both branches
identically); a cursor that is not an absolute `http(s)` URL is treated as
a bare suffix, stripped of leading separators and appended to the REST
base; an absolute URL is used as-is. -/
def normalizeNextUrl (u : List Char) : List Char :=
  if pyStartsWith u slashStr then
    if pyStartsWith u restSlash then hostStr ++ u else hostStr ++ u
  else if !(pyStartsWith u httpPre || pyStartsWith u httpsPre) then
    restBaseSlash ++ lstripChar '/' u
  else u

/-- Extraction of the next-page cursor from a response envelope:
`links = data.get('links', {})`, then `if 'next' in links and
links['next']:` followed by the normalization above.  A truthy non-string
cursor raises `AttributeError` (Python `startswith` on a non-string). -/
def extractNextUrl (data : JVal) : Except PyErr (Option (List Char)) := do
  let links ← pyGet data linksKey (.jobj [])
  let b ← pyContains links nextKey
  if b then do
    let v ← pySubscript links nextKey
    if truthy v then
      match v with
      | .jstr s => pure (some (normalizeNextUrl s))
      | _ => Except.error PyErr.attrError
    else pure none
  else pure none

/-- Model of `SnykClient._process_paginated_response` (api_client.py lines 124-161):
one GET, response normalization, next-cursor extraction, and the item
payload under `data_key`; a `SnykAPIError` with status 404 is converted to
"no more results" (`([], None)`). -/
def processPaginated (srv : Server σ) (url dk : List Char) : M σ (JVal × Option (List Char)) :=
  catchSnyk
    (do
      let r ← makeRequest srv getM url none
      let dOpt ← liftExc (handleResponse r)
      let d ← (match dOpt with
        | some j => (pure j : M σ JVal)
        | none => throwErr PyErr.attrError)
      let nxt ← liftExc (extractNextUrl d)
      let items ← liftExc (pyGet d dk (.jarr []))
      pure (items, nxt))
    (fun m s rl =>
      if s == some 404 then pure (.jarr [], none) else throwErr (.snyk m s rl))

/-- The fixed inter-page throttle (`time.sleep(0.1)`). -/
def throttleDelay : Rat := 1 / 10

/-- The `while url:` loop of `SnykClient.get_organizations` (api_client.py
lines 183-190): fetch a page, extend the accumulator, follow the cursor,
throttling between pages.  `fuel` bounds the number of iterations the
model will unfold; a result of `none` means the source loop is still
running after `fuel` iterations (the source has no such bound). -/
def orgsWalk (srv : Server σ) : Nat → Option (List Char) → List JVal → M σ (Option (List JVal))
  | _, none, acc => pure (some acc)
  | 0, some _, _ => pure none
  | fuel + 1, some url, acc => do
    let bn ← processPaginated srv url dataKey
    let batch ← liftExc (pyIter bn.1)
    match bn.2 with
    | none => orgsWalk srv fuel none (acc ++ batch)
    | some nu => do
      sleepFor throttleDelay
      orgsWalk srv fuel (some nu) (acc ++ batch)

/-- Message of the validation error of `get_organizations` (quote
characters around the interpolated id are elided). -/
def invalidGroupFmtMsg (gid : List Char) : List Char :=
  ("Invalid Group ID format: ").data ++ gid ++ (". Please check and try again.").data

/-- Message raised when the listing drains to an empty result. -/
def noOrgsMsg (gid : List Char) : List Char :=
  ("No organizations found for Group ID: ").data ++ gid
    ++ (". Please verify the Group ID and your access permissions.").data

/-- Message of the 404 rewrap of `get_organizations` (apostrophes elided). -/
def group404Msg (gid : List Char) : List Char :=
  ("Group ID ").data ++ gid
    ++ (" is not valid or you do not have access to it. Please verify the Group ID and your access permissions.").data

/-- Message of the 400 rewrap of `get_organizations`. -/
def group400Msg (gid : List Char) : List Char :=
  ("Invalid Group ID format: ").data ++ gid
    ++ (". Please check and try again with a valid Group ID.").data

/-- Prefix of the final rewrap of `get_organizations`. -/
def orgsFailPre : List Char := "Failed to fetch organizations: ".data

/-- Model of `SnykClient.get_organizations` (api_client.py lines 163-211): input
validation (`len(group_id) < 10` rejected; the `isinstance` test is
vacuous in the model), the paginated walk, the non-empty check, and the
rewrapping of `SnykAPIError`s by status.  `fuel` as in `orgsWalk`. -/
def getOrganizations (srv : Server σ) (fuel : Nat) (gid : List Char) :
    M σ (Option (List JVal)) :=
  if gid.length < 10 then throwErr (.snyk (invalidGroupFmtMsg gid) none false)
  else
    catchSnyk
      (do
        let r ← orgsWalk srv fuel (some (orgsSeedUrl gid)) []
        match r with
        | none => pure none
        | some all =>
          if all.isEmpty then throwErr (.snyk (noOrgsMsg gid) none false)
          else pure (some all))
      (fun m s _rl =>
        if s == some 404 then throwErr (.snyk (group404Msg gid) none false)
        else if s == some 400 then throwErr (.snyk (group400Msg gid) none false)
        else throwErr (.snyk (orgsFailPre ++ m) none false))

/-- The record returned by `get_sast_settings` on its 404 and
fetch-failure paths: `{"sast_enabled": False}`. -/
def fallbackSastSettings : List (List Char × JVal) :=
  [(seKey, .jbool false)]

/-- Pure part of `get_sast_settings` after the GET: normalize the
response, then build
`{"sast_enabled": ..., "sast_autofix_enabled": ..., "sast_autofix_pr_enabled": ...}`
from `data.get("data", {}).get("attributes", {})`.  A 204 response yields
`None`, on which the subsequent `.get` raises `AttributeError`. -/
def settingsFromResponse (r : HttpResponse) : Except PyErr (List (List Char × JVal)) := do
  let dOpt ← handleResponse r
  let d ← (match dOpt with
    | some j => Except.ok j
    | none => Except.error PyErr.attrError)
  let dv ← pyGet d dataKey (.jobj [])
  let settings ← pyGet dv attrKey (.jobj [])
  let se ← pyGet settings seKey (.jbool false)
  let saf ← pyGet settings safKey (.jbool false)
  let safp ← pyGet settings safpKey (.jbool false)
  pure [(seKey, se), (safKey, saf), (safpKey, safp)]

/-- Model of `SnykClient.get_sast_settings` (api_client.py lines 213-229): one GET;
a 404 status yields the fallback record before any body handling; any
`SnykAPIError` along the way yields the fallback record; other exceptions
(only `AttributeError` is reachable) propagate. -/
def getSastSettings (srv : Server σ) (oid : List Char) :
    M σ (List (List Char × JVal)) := fun st =>
  match makeRequest srv getM (settingsUrl oid) none st with
  | (.error (.snyk _ _ _), st1) => (.ok fallbackSastSettings, st1)
  | (.error e, st1) => (.error e, st1)
  | (.ok r, st1) =>
    if r.status == 404 then (.ok fallbackSastSettings, st1)
    else
      match settingsFromResponse r with
      | .ok m => (.ok m, st1)
      | .error (.snyk _ _ _) => (.ok fallbackSastSettings, st1)
      | .error e => (.error e, st1)

/-- Status codes accepted as success by the toggle operations. -/
def successCodes : List Nat := [200, 201, 204]

/-- Pattern texts treated as "already enabled". -/
def alreadyEnabledStr : List Char := "already enabled".data

/-- Second "already enabled" pattern. -/
def isEnabledStr : List Char := "is enabled".data

/-- Pattern texts treated as "already disabled". -/
def alreadyDisabledStr : List Char := "already disabled".data

/-- Second "already disabled" pattern. -/
def isDisabledStr : List Char := "is disabled".data

/-- Python `any(msg in str(e).lower() for msg in ["already enabled", "is enabled"])`. -/
def textMatchEnable (m : List Char) : Bool :=
  containsSub alreadyEnabledStr (lowerStr m) || containsSub isEnabledStr (lowerStr m)

/-- The disable-side counterpart over `["already disabled", "is disabled"]`. -/
def textMatchDisable (m : List Char) : Bool :=
  containsSub alreadyDisabledStr (lowerStr m) || containsSub isDisabledStr (lowerStr m)

/-- Stand-in for `str(e)` of a modelled Python exception (for
`SnykAPIError` this is its message, per its constructor). -/
def pyErrText : PyErr → List Char
  | .snyk m _ _ => m
  | .attrError => "AttributeError".data
  | .typeError => "TypeError".data
  | .keyError => "KeyError".data
  | .indexError => "list index out of range".data
  | .valueError s => s

/-- The PATCH payload of `enable_sast`:
`{"data": {"type": "sast_settings", "id": org_id, "attributes": {"sast_enabled": True}}}`. -/
def enablePayload (oid : List Char) : JVal :=
  .jobj [(dataKey, .jobj [(typeKey, .jstr sastSettingsStr), (idKey, .jstr oid),
    (attrKey, .jobj [(seKey, .jbool true)])])]

/-- The PATCH payload of `disable_sast` (same shape, `sast_enabled: False`). -/
def disablePayload (oid : List Char) : JVal :=
  .jobj [(dataKey, .jobj [(typeKey, .jstr sastSettingsStr), (idKey, .jstr oid),
    (attrKey, .jobj [(seKey, .jbool false)])])]

/-- The error text computed (for console reporting) by the non-2xx branch
of the toggles (api_client.py lines 288-295):
`error_data.get('errors', [{'detail': str(error_data)}])`, then
`error_msg[0].get('detail', 'Unknown error')` when that is a list; every
exception inside is caught and replaced by a fallback text. -/
def patchErrorMsgE (r : HttpResponse) : Except PyErr JVal := do
  let errData ← (match r.body with
    | some j => Except.ok j
    | none => Except.error (PyErr.valueError jsonDecodeText))
  let em ← pyGet errData errorsKey (.jarr [JVal.jobj [(detailKey, .jstr (pyStr errData))]])
  match em with
  | .jarr l =>
    match l with
    | [] => Except.error PyErr.indexError
    | first :: _ => pyGet first detailKey (.jstr unknownErrStr)
  | other => Except.ok other

/-- The final reported error text of the non-2xx toggle branch. -/
def patchErrorMsg (r : HttpResponse) : List Char :=
  match patchErrorMsgE r with
  | .ok v => pyStr v
  | .error e => ("Failed to parse error response: ").data ++ pyErrText e

/-- The body-verification chain both toggles run on a success status:
`response_data.get('data', {}).get('attributes', {}).get('sast_enabled', d)`
(its boolean result only selects between two console messages — both
toggle branches return `True` — but the chain itself can raise
`AttributeError` on a non-dictionary JSON body). -/
def echoCheck (responseData : JVal) (d : JVal) : Except PyErr JVal := do
  let dv ← pyGet responseData dataKey (.jobj [])
  let av ← pyGet dv attrKey (.jobj [])
  pyGet av seKey d

/-- The PATCH section of `enable_sast` (api_client.py lines 262-306): send
the PATCH; on a `SnykAPIError` the result is exactly the text match
against the "already enabled" patterns; on a response, any of 200/201/204
is success (both branches of the body verification return `True`, but the
`.get` chain can raise `AttributeError` on a non-dictionary JSON body);
any other status computes the vendor error detail for reporting and
returns `False`. -/
def enableSastPatch (srv : Server σ) (oid : List Char) : M σ Bool := fun st =>
  match makeRequest srv patchM (settingsUrl oid) (some (enablePayload oid)) st with
  | (.error (.snyk m _ _), st1) => (.ok (textMatchEnable m), st1)
  | (.error e, st1) => (.error e, st1)
  | (.ok r, st1) =>
    let responseData := r.body.getD (.jobj [])
    if successCodes.contains r.status then
      match echoCheck responseData (.jbool false) with
      | .ok _ => (.ok true, st1)
      | .error e => (.error e, st1)
    else
      let _ := patchErrorMsg r
      (.ok false, st1)

/-- Model of `SnykClient.enable_sast` (api_client.py lines 231-306): the advisory
pre-check (`get_sast_settings`; a truthy `sast_enabled` short-circuits
with success; a `SnykAPIError` from the pre-check is logged and ignored),
then the PATCH section. -/
def enableSast (srv : Server σ) (oid orgName : List Char) : M σ Bool := fun st =>
  match getSastSettings srv oid st with
  | (.ok cur, st1) =>
    if truthy (dictGetD cur seKey (.jbool false)) then (.ok true, st1)
    else enableSastPatch srv oid st1
  | (.error (.snyk _ _ _), st1) => enableSastPatch srv oid st1
  | (.error e, st1) => (.error e, st1)

/-- The PATCH section of `disable_sast` (api_client.py lines 339-383),
mirror image of `enableSastPatch` with the "already disabled" patterns. -/
def disableSastPatch (srv : Server σ) (oid : List Char) : M σ Bool := fun st =>
  match makeRequest srv patchM (settingsUrl oid) (some (disablePayload oid)) st with
  | (.error (.snyk m _ _), st1) => (.ok (textMatchDisable m), st1)
  | (.error e, st1) => (.error e, st1)
  | (.ok r, st1) =>
    let responseData := r.body.getD (.jobj [])
    if successCodes.contains r.status then
      match echoCheck responseData (.jbool true) with
      | .ok _ => (.ok true, st1)
      | .error e => (.error e, st1)
    else
      let _ := patchErrorMsg r
      (.ok false, st1)

/-- Model of `SnykClient.disable_sast` (api_client.py lines 308-383): pre-check
`if not current_settings.get('sast_enabled', True)` short-circuits with
success, then the PATCH section.  Note the pre-check default is `True`
here (contrast `enable_sast`), and that `get_sast_settings` converts its
own failures into `{"sast_enabled": False}` — so a failed pre-check read
makes this branch report "already disabled" and skip the PATCH. -/
def disableSast (srv : Server σ) (oid orgName : List Char) : M σ Bool := fun st =>
  match getSastSettings srv oid st with
  | (.ok cur, st1) =>
    if !(truthy (dictGetD cur seKey (.jbool true))) then (.ok true, st1)
    else disableSastPatch srv oid st1
  | (.error (.snyk _ _ _), st1) => disableSastPatch srv oid st1
  | (.error e, st1) => (.error e, st1)

/-- Model of `SnykClient.delete_project` (api_client.py lines 484-489): build the
URL, one DELETE through the transport, normalize the response, return
`True`.  No input validation and no pre-check read precede the DELETE. -/
def deleteProject (srv : Server σ) (oid pid : List Char) : M σ Bool := do
  let r ← makeRequest srv deleteM (projectUrl oid pid) none
  let _ ← liftExc (handleResponse r)
  pure true

/-- Python `[`/`]` replacement used to sanitize names and error texts. -/
def replaceBrackets (s : List Char) : List Char :=
  s.map (fun c => if c == '[' then '(' else if c == ']' then ')' else c)

/-- Model of `sanitize_project_data` inside `get_sast_projects` (api_client.py
lines 398-408). -/
def sanitizeProjectData (oid : List Char) (project : JVal) : Except PyErr JVal := do
  let attrs ← pyGet project attrKey (.jobj [])
  let pid ← pyGet project idKey (.jstr [])
  let nm ← pyGet attrs nameKey (.jstr [])
  let created ← pyGet attrs createdKey .jnull
  let ty ← pyGet attrs typeKey (.jstr [])
  let sv ← pyGet attrs statusKey (.jstr [])
  pure (.jobj [(idKey, .jstr (pyStr pid)), (nameKey, .jstr (replaceBrackets (pyStr nm))),
    (createdKey, created), (orgIdKey, .jstr oid), (typeKey, ty), (statusKey, sv)])

/-- The filter-and-sanitize pass over one page of projects:
`if project.get("attributes", {}).get("type") == "sast": append(sanitize)`. -/
def filterSastBatch (oid : List Char) (acc : List JVal) : List JVal → Except PyErr (List JVal)
  | [] => .ok acc
  | p :: rest => do
    let attrs ← pyGet p attrKey (.jobj [])
    let ty ← pyGet attrs typeKey .jnull
    if ty == JVal.jstr sastStr then do
      let sp ← sanitizeProjectData oid p
      filterSastBatch oid (acc ++ [sp]) rest
    else filterSastBatch oid acc rest

/-- Python `str.split()` restricted to space separators (the only
whitespace appearing in the client's messages). -/
def splitWsAux : List Char → List Char → List (List Char)
  | [], cur => if cur.isEmpty then [] else [cur.reverse]
  | c :: rest, cur =>
    if c == ' ' then
      (if cur.isEmpty then splitWsAux rest [] else cur.reverse :: splitWsAux rest [])
    else splitWsAux rest (c :: cur)

/-- Python `str.split()` on spaces. -/
def splitWs (s : List Char) : List (List Char) :=
  splitWsAux s []

/-- Python `int(s)` restricted to plain digit strings (the only inputs the
client ever feeds it); anything else raises `ValueError`. -/
def parseNatAux : List Char → Nat → Option Nat
  | [], acc => some acc
  | c :: rest, acc =>
    if c.isDigit then parseNatAux rest (acc * 10 + (c.toNat - 48)) else none

/-- Python `int(s)` over digit strings, `none` otherwise. -/
def parseIntPy (s : List Char) : Option Nat :=
  if s.isEmpty then none else parseNatAux s 0

/-- The fragile wait-time extraction of `get_sast_projects`
(`int(str(e).split()[-2])`, api_client.py line 452). -/
def parseRetryAfter (m : List Char) : Except PyErr Nat :=
  let toks := splitWs m
  if toks.length < 2 then .error PyErr.indexError
  else
    match toks.get? (toks.length - 2) with
    | some t =>
      match parseIntPy t with
      | some n => .ok n
      | none =>
        .error (.valueError (("invalid literal for int() with base 10: ").data ++ t))
    | none => .error PyErr.indexError

/-- The `while url:` loop of `get_sast_projects` (api_client.py lines
421-464): fetch a page, filter/sanitize, follow the cursor with the
throttle; a surviving `RateLimitExceededError` triggers the string-parsed
wait plus one second and a retry of the same URL; a `SnykAPIError` with
status 404 ends the loop returning what was accumulated; other exceptions
propagate.  `fuel` as in `orgsWalk` (a rate-limit retry also consumes
fuel in the model). -/
def projWalk (srv : Server σ) (oid : List Char) :
    Nat → Option (List Char) → List JVal → M σ (Option (List JVal))
  | _, none, acc => pure (some acc)
  | 0, some _, _ => pure none
  | fuel + 1, some url, acc => fun st =>
    match (do
        let bn ← processPaginated srv url dataKey
        let batch ← liftExc (pyIter bn.1)
        let acc2 ← liftExc (filterSastBatch oid acc batch)
        match bn.2 with
        | none => (pure (acc2, (none : Option (List Char))) : M σ _)
        | some nu => do
          sleepFor throttleDelay
          pure (acc2, some nu)) st with
    | (.ok an, st1) => projWalk srv oid fuel an.2 an.1 st1
    | (.error (.snyk m s true), st1) =>
      (match parseRetryAfter m with
        | .ok w => (do
            sleepFor ((w + 1 : Nat) : Rat)
            projWalk srv oid fuel (some url) acc) st1
        | .error e => (.error e, st1))
    | (.error (.snyk m s false), st1) =>
      if s == some 404 then (.ok (some acc), st1) else (.error (.snyk m s false), st1)
    | (.error e, st1) => (.error e, st1)

/-- Message of the validation error of `get_sast_projects` (quotes
elided). -/
def invalidOrgFmtMsg (oid : List Char) : List Char :=
  ("Invalid Organization ID format: ").data ++ oid

/-- Prefix of the outer exception wrap of `get_sast_projects`. -/
def projErrPre (oid : List Char) : List Char :=
  ("Error fetching SAST projects for org ").data ++ oid ++ (": ").data

/-- Model of `SnykClient.get_sast_projects` (api_client.py lines 385-482): input
validation (`len(org_id) < 10` rejected) before anything else, then the
paginated filtered walk; any exception from the walk is wrapped into a
`SnykAPIError` whose message has brackets replaced.  `fuel` as in
`orgsWalk`. -/
def getSastProjects (srv : Server σ) (fuel : Nat) (oid : List Char) :
    M σ (Option (List JVal)) := fun st =>
  if oid.length < 10 then (.error (.snyk (invalidOrgFmtMsg oid) none false), st)
  else
    match projWalk srv oid fuel (some (projectsUrl oid)) [] st with
    | (.ok r, st1) => (.ok r, st1)
    | (.error e, st1) =>
      (.error (.snyk (replaceBrackets (projErrPre oid ++ pyErrText e)) none false), st1)

/-- A fresh run state over a given server state: nothing issued yet. -/
def initSt (s : σ) : St σ :=
  ⟨s, [], []⟩

/-- A settings response body
`{"data": {"attributes": {"sast_enabled": flag, ...}}}` as returned by the
vendor for GET/PATCH on the settings resource. -/
def settingsBody (flag : Bool) : JVal :=
  .jobj [(dataKey, .jobj [(attrKey, .jobj [(seKey, .jbool flag),
    (safKey, .jbool false), (safpKey, .jbool false)])])]

/-- Test double: vendor that always answers 200 with a configured
settings record (`sast_enabled = true`). -/
def srvSettingsOk : Server Unit := fun s _ =>
  (.resp ⟨200, none, some (settingsBody true)⟩, s)

/-- Test double: vendor that always answers 404. -/
def srv404 : Server Unit := fun s _ =>
  (.resp ⟨404, none, some (.jobj [])⟩, s)

/-- Test double: vendor that always fails at the connection level. -/
def srvConnFail : Server Unit := fun s _ =>
  (.connError ("connection refused").data, s)

/-- Test double: vendor that always answers 204 No Content. -/
def srv204 : Server Unit := fun s _ =>
  (.resp ⟨204, none, none⟩, s)

/-- Test double: vendor whose first response is a 429 carrying
`Retry-After: 2`, and which succeeds from the second request on. -/
def srv429Once : Server Nat := fun k _ =>
  if k == 0 then (.resp ⟨429, some 2, some (.jobj [])⟩, k + 1)
  else (.resp ⟨200, none, some (.jobj [])⟩, k + 1)

/-- Desired `sast_enabled` value carried by a settings PATCH payload. -/
def desiredOfPayload (p : Option JVal) : Option Bool :=
  match p with
  | some v =>
    match v.getKey dataKey with
    | some d =>
      match d.getKey attrKey with
      | some a =>
        match a.getKey seKey with
        | some (.jbool b) => some b
        | _ => none
      | _ => none
    | _ => none
  | none => none

/-- Test double: an honest stateful vendor for the toggle scenario.  Its
state is the stored `sast_enabled` flag; a GET reports it, a settings
PATCH stores the payload's desired value and echoes it back with 200. -/
def toggleSrv : Server Bool := fun flag req =>
  if req.method == getM then (.resp ⟨200, none, some (settingsBody flag)⟩, flag)
  else
    match desiredOfPayload req.payload with
    | some b => (.resp ⟨200, none, some (settingsBody b)⟩, b)
    | none => (.resp ⟨400, none, some (.jobj [])⟩, flag)

/-- The repeated cursor served by the cycling vendor. -/
def cyclePath : List Char := "/rest/orgs?cycle".data

/-- Page body whose next-link always repeats the same cursor. -/
def cycleBody : JVal :=
  .jobj [(dataKey, .jarr []), (linksKey, .jobj [(nextKey, .jstr cyclePath)])]

/-- Test double: vendor whose every page points to the same next cursor —
the malformed "next" loop the spec warns about. -/
def cycleSrv : Server Unit := fun s _ =>
  (.resp ⟨200, none, some cycleBody⟩, s)

/-- The absolute URL the walker derives from the cycling cursor. -/
def cycleUrl : List Char := hostStr ++ cyclePath

/-- The relative cursor served between pages by the paged vendor. -/
def pagesNextPath : List Char := "/rest/orgs?nextpage".data

/-- One page body of the paged vendor: items under `data`, and a next
cursor exactly when further pages remain. -/
def pageBody (items : List JVal) (rest : List (List JVal)) : JVal :=
  .jobj [(dataKey, .jarr items),
    (linksKey, .jobj (match rest with
      | [] => []
      | _ :: _ => [(nextKey, .jstr pagesNextPath)]))]

/-- Test double: vendor serving a fixed finite sequence of pages; its
state is the list of pages not yet served (404 after exhaustion). -/
def pagesSrv : Server (List (List JVal)) := fun rem _ =>
  match rem with
  | [] => (.resp ⟨404, none, some (.jobj [])⟩, [])
  | items :: rest => (.resp ⟨200, none, some (pageBody items rest)⟩, rest)

/-- Test double: vendor accepting a DELETE with 204 No Content. -/
def srvDelOk : Server Unit := fun s _ =>
  (.resp ⟨204, none, none⟩, s)

/-- Test double: vendor whose first four answers are connection failures
(exhausting one full `_make_request` retry cycle) and which then answers
200 with a configured settings record. -/
def srvConnFlaky : Server Nat := fun k _ =>
  if k < 4 then (.connError ("connection reset").data, k + 1)
  else (.resp ⟨200, none, some (settingsBody true)⟩, k + 1)

/-- Error body of a 409 whose vendor detail says SAST is already enabled. -/
def already409Body : JVal :=
  .jobj [(errorsKey, .jarr [.jobj [(detailKey, .jstr ("SAST is already enabled").data),
    (statusKey, .jstr ("409").data)]])]

/-- Test double: vendor answering the pre-check GET with a disabled
settings record and every PATCH with a 409 whose detail text matches the
"already enabled" pattern. -/
def srv409 : Server Nat := fun k req =>
  if req.method == getM then (.resp ⟨200, none, some (settingsBody false)⟩, k + 1)
  else (.resp ⟨409, none, some already409Body⟩, k + 1)

/-- A syntactically plausible organization id (length ≥ 10). -/
def oid0 : List Char := "0123456789abcdef".data

/-- A syntactically plausible group id. -/
def gid0 : List Char := "fedcba9876543210".data

/-- A syntactically plausible project id. -/
def pid0 : List Char := "11112222333344445555".data

/-- The empty display name passed to the toggles in the scenarios. -/
def nm0 : List Char := []

/-- Is a logged request a PATCH? -/
def isPatch (r : Request) : Bool :=
  r.method == patchM

/-- Number of PATCH requests in a trace. -/
def patchCount (st : St σ) : Nat :=
  (st.reqs.filter isPatch).length

/-- Observer: what the `enable_sast` pre-check concludes — `true` when the
pre-check read reports SAST already enabled, `false` when it reports it
disabled or itself fails. -/
def preFlagB (srv : Server σ) (oid : List Char) (st : St σ) : Bool :=
  match (getSastSettings srv oid st).1 with
  | .ok cur => truthy (dictGetD cur seKey (.jbool false))
  | .error _ => false

/-- Observer: the run state after the pre-check read. -/
def afterPre (srv : Server σ) (oid : List Char) (st : St σ) : St σ :=
  (getSastSettings srv oid st).2

/-- Observer: the transport outcome of the enable PATCH, as issued from
the post-pre-check state. -/
def patchRun (srv : Server σ) (oid : List Char) (st : St σ) :
    Except PyErr HttpResponse × St σ :=
  makeRequest srv patchM (settingsUrl oid) (some (enablePayload oid)) (afterPre srv oid st)

/-- Observer: did the enable PATCH come back with one of the accepted
success statuses (200/201/204)? -/
def patch2xxB (srv : Server σ) (oid : List Char) (st : St σ) : Bool :=
  match (patchRun srv oid st).1 with
  | .ok r => successCodes.contains r.status
  | .error _ => false

/-- Observer: did the enable PATCH raise a `SnykAPIError` whose text
matches the "already enabled" patterns? -/
def patchMatchB (srv : Server σ) (oid : List Char) (st : St σ) : Bool :=
  match (patchRun srv oid st).1 with
  | .error (.snyk m _ _) => textMatchEnable m
  | _ => false

/-- A generic absolute URL for transport-level scenarios. -/
def u0 : List Char := "https://api.snyk.io/rest/orgs".data

/-- A too-short identifier for validation scenarios. -/
def shortId : List Char := "abc".data

/-- A representative relative cursor suffix for the normalization claim. -/
def c5p : List Char := "orgs?version=2024-10-15&limit=100".data

/-- The absolute URL the walker derives from the paged vendor cursor. -/
def pagesNextUrl : List Char := hostStr ++ pagesNextPath

/-- A first sample organization record. -/
def orgA : JVal := .jobj [(idKey, .jstr ("org-a").data)]

/-- A second sample organization record. -/
def orgB : JVal := .jobj [(idKey, .jstr ("org-b").data)]

/-- The 409 response served by `srv409` to every PATCH. -/
def resp409 : HttpResponse := ⟨409, none, some already409Body⟩

/-- The vendor detail text inside `already409Body`. -/
def alreadyDetail : List Char := "SAST is already enabled".data

/-- A string not starting with a separator is unchanged by `lstrip('/')`. -/
theorem lstrip_no_slash (p : List Char) (h : pyStartsWith p slashStr = false) :
    lstripChar '/' p = p := by
  cases p with
  | nil => rfl
  | cons c t =>
    by_cases hc : c = '/'
    · subst hc
      have ht : pyStartsWith ( '/' :: t) slashStr = true := rfl
      rw [ht] at h
      exact absurd h (by simp)
    · have h3 : (c == ( '/' : Char)) = false := beq_eq_false_iff_ne.mpr hc
      simp [lstripChar, List.dropWhile_cons, h3]

/-- Claim C5 (confirmed): the three cursor shapes that denote the same
logical resource — the absolute URL `https://api.snyk.io/rest/{p}`, the
vendor-prefixed relative path `/rest/{p}`, and the bare relative path
`{p}` — are all resolved by the walker's normalization to the same
absolute URL, the absolute one used as-is, the prefixed one combined with
the REST base without duplicating the `/rest` prefix, and the bare one
appended to the REST base with a separator. -/
theorem c5_cursor_normalization (p : List Char)
    (h1 : pyStartsWith p slashStr = false)
    (h2 : pyStartsWith p httpPre = false)
    (h3 : pyStartsWith p httpsPre = false) :
    normalizeNextUrl (restBaseSlash ++ p) = restBaseSlash ++ p ∧
    normalizeNextUrl (restSlash ++ p) = restBaseSlash ++ p ∧
    normalizeNextUrl p = restBaseSlash ++ p := by
  refine ⟨rfl, ?_, ?_⟩
  · show hostStr ++ (restSlash ++ p) = restBaseSlash ++ p
    rw [← List.append_assoc]
    rfl
  · show normalizeNextUrl p = restBaseSlash ++ p
    unfold normalizeNextUrl
    rw [h1, h2, h3]
    simp [lstrip_no_slash p h1]

/-- Witness for C5 at a concrete cursor suffix. -/
theorem c5_witness :
    pyStartsWith c5p slashStr = false ∧ pyStartsWith c5p httpPre = false ∧
    pyStartsWith c5p httpsPre = false ∧
    (normalizeNextUrl (restBaseSlash ++ c5p) = restBaseSlash ++ c5p ∧
     normalizeNextUrl (restSlash ++ c5p) = restBaseSlash ++ c5p ∧
     normalizeNextUrl c5p = restBaseSlash ++ c5p) :=
  ⟨rfl, rfl, rfl, c5_cursor_normalization c5p rfl rfl rfl⟩

/-- Claim C7 (confirmed): against an honest stateful vendor that starts
with SAST disabled, calling `enable_sast` twice in a row succeeds both
times while sending exactly one PATCH in total — the first call issues
the single PATCH, and the second short-circuits after its pre-check
observes the desired state already holds. -/
theorem c7_idempotent_toggle :
    (enableSast toggleSrv oid0 nm0 (initSt false)).1 = .ok true ∧
    patchCount (enableSast toggleSrv oid0 nm0 (initSt false)).2 = 1 ∧
    (enableSast toggleSrv oid0 nm0 (enableSast toggleSrv oid0 nm0 (initSt false)).2).1 =
      .ok true ∧
    patchCount (enableSast toggleSrv oid0 nm0 (enableSast toggleSrv oid0 nm0 (initSt false)).2).2 = 1 :=
  ⟨rfl, rfl, rfl, rfl⟩

/-- Claim C8 (confirmed): in the transport layer, the response sequence
[429 with Retry-After 2, then 200] yields exactly one retry (two requests
in total), a single sleep of exactly the server-supplied 2 seconds (the
`Retry-After` value taking preference over the computed backoff, which
would have been 1 second on this first retry), and a successful 200
result with no error surfaced. -/
theorem c8_retry_rate_limit :
    (makeRequest srv429Once getM u0 none (initSt 0)).1 =
      .ok ⟨200, none, some (.jobj [])⟩ ∧
    (makeRequest srv429Once getM u0 none (initSt 0)).2.reqs.length = 2 ∧
    (makeRequest srv429Once getM u0 none (initSt 0)).2.sleeps = [(2 : Rat)] :=
  ⟨rfl, rfl, rfl⟩

/-- Claim C1 (counterexample): `get_sast_settings` and `delete_project`
called with empty identifiers do not fail fast with an invalid-argument
error — each issues an HTTP request (one network call) and completes
normally. -/
theorem c1_counterexample :
    (getSastSettings srvSettingsOk [] (initSt ())).2.reqs.length = 1 ∧
    (getSastSettings srvSettingsOk [] (initSt ())).1 =
      .ok [(seKey, .jbool true), (safKey, .jbool false), (safpKey, .jbool false)] ∧
    (deleteProject srvDelOk [] [] (initSt ())).2.reqs.length = 1 ∧
    (deleteProject srvDelOk [] [] (initSt ())).1 = .ok true :=
  ⟨rfl, rfl, rfl, rfl⟩

/-- Claim C1 (amended): only the two listing operations validate their
identifier — `get_organizations` and `get_sast_projects` reject any
identifier shorter than ten characters with an invalid-format
`SnykAPIError` raised before any HTTP request (the run state, including
the request log, is untouched); `get_sast_settings`, the SAST toggles and
`delete_project` perform no identifier validation. -/
theorem c1_amended_validation (σ1 σ2 : Type) (srv1 : Server σ1) (srv2 : Server σ2)
    (st1 : St σ1) (st2 : St σ2) (fuel1 fuel2 : Nat) (gid oid : List Char)
    (hg : gid.length < 10) (ho : oid.length < 10) :
    getOrganizations srv1 fuel1 gid st1 =
      (.error (.snyk (invalidGroupFmtMsg gid) none false), st1) ∧
    getSastProjects srv2 fuel2 oid st2 =
      (.error (.snyk (invalidOrgFmtMsg oid) none false), st2) := by
  constructor
  · unfold getOrganizations
    rw [if_pos hg]
    rfl
  · unfold getSastProjects
    rw [if_pos ho]

/-- Witness for C1 at the concrete short identifier. -/
theorem c1_witness :
    shortId.length < 10 ∧
    (getOrganizations srvSettingsOk 1 shortId (initSt ()) =
      (.error (.snyk (invalidGroupFmtMsg shortId) none false), initSt ()) ∧
     getSastProjects srvSettingsOk 1 shortId (initSt ()) =
      (.error (.snyk (invalidOrgFmtMsg shortId) none false), initSt ())) :=
  ⟨by decide,
   c1_amended_validation Unit Unit srvSettingsOk srvSettingsOk (initSt ()) (initSt ())
     1 1 shortId shortId (by decide) (by decide)⟩

/-- Claim C2 (counterexample): `delete_project` performs no idempotency
pre-check — its whole trace is the single DELETE request, with no
preceding read of remote state. -/
theorem c2_counterexample :
    (deleteProject srvDelOk oid0 pid0 (initSt ())).1 = .ok true ∧
    (deleteProject srvDelOk oid0 pid0 (initSt ())).2.reqs.map Request.method = [deleteM] :=
  ⟨rfl, rfl⟩

/-- Claim C2 (amended): the SAST toggles perform the advisory pre-check
(their first requests are settings GETs); because `get_sast_settings`
converts its own failures into `sast_enabled = false`, a failed pre-check
read makes `enable_sast` proceed with the PATCH, while `disable_sast`
skips the PATCH and reports success; `delete_project` performs no
pre-check and issues the DELETE directly.  Demonstrated against a vendor
whose four first answers are connection failures (one exhausted retry
cycle) followed by successes. -/
theorem c2_amended :
    ((enableSast srvConnFlaky oid0 nm0 (initSt 0)).1 = .ok true ∧
     (enableSast srvConnFlaky oid0 nm0 (initSt 0)).2.reqs.map Request.method =
       [getM, getM, getM, getM, patchM]) ∧
    ((disableSast srvConnFlaky oid0 nm0 (initSt 0)).1 = .ok true ∧
     (disableSast srvConnFlaky oid0 nm0 (initSt 0)).2.reqs.map Request.method =
       [getM, getM, getM, getM]) ∧
    (deleteProject srvDelOk oid0 pid0 (initSt ())).2.reqs.map Request.method = [deleteM] :=
  ⟨⟨rfl, rfl⟩, ⟨rfl, rfl⟩, rfl⟩

/-- One page fetch against the cycling vendor: empty item batch and the
same normalized cursor again, one request appended to the trace. -/
theorem processPaginated_cycleSrv (url : List Char) (st : St Unit) :
    processPaginated cycleSrv url dataKey st =
      (.ok (.jarr [], some cycleUrl),
        ⟨(), st.reqs ++ [⟨getM, url, none⟩], st.sleeps⟩) := rfl

/-- One iteration of the organizations walk against the cycling vendor:
the walk continues on the same cursor with one more request and the
throttle sleep logged. -/
theorem orgsWalk_cycle_step (k : Nat) (url : List Char) (acc : List JVal) (st : St Unit) :
    orgsWalk cycleSrv (k + 1) (some url) acc st =
      orgsWalk cycleSrv k (some cycleUrl) (acc ++ [])
        ⟨(), st.reqs ++ [⟨getM, url, none⟩], st.sleeps ++ [throttleDelay]⟩ := rfl

/-- Claim C3 (counterexample): against a vendor whose next-link always
repeats the same cursor, the walker re-requests the already-seen cursor —
after three iterations the request log contains the normalized cycling
cursor twice in a row, and the loop is still running (no termination, no
cap, no repeated-cursor detection). -/
theorem c3_counterexample :
    (orgsWalk cycleSrv 3 (some (orgsSeedUrl gid0)) [] (initSt ())).2.reqs.map Request.url =
      [orgsSeedUrl gid0, cycleUrl, cycleUrl] ∧
    (orgsWalk cycleSrv 3 (some (orgsSeedUrl gid0)) [] (initSt ())).1 = .ok none :=
  ⟨rfl, rfl⟩

/-- Claim C3 (amended): the walker keeps no record of seen cursors and
imposes no page cap; it terminates only when a page's next-link is absent
or falsy.  Against the cycling vendor it therefore never terminates: after
any number `n` of iterations the loop is still live, having issued exactly
one request per iteration (each after the first re-requesting the
already-seen cursor). -/
theorem c3_amended (n : Nat) :
    ∀ (st : St Unit) (url : List Char) (acc : List JVal),
      (orgsWalk cycleSrv n (some url) acc st).1 = .ok none ∧
      (orgsWalk cycleSrv n (some url) acc st).2.reqs.length = st.reqs.length + n := by
  induction n with
  | zero =>
    intro st url acc
    exact ⟨rfl, rfl⟩
  | succ k ih =>
    intro st url acc
    rw [orgsWalk_cycle_step k url acc st]
    rcases ih ⟨(), st.reqs ++ [⟨getM, url, none⟩], st.sleeps ++ [throttleDelay]⟩
      cycleUrl (acc ++ []) with ⟨h1, h2⟩
    refine ⟨h1, ?_⟩
    rw [h2]
    simp
    omega

/-- Final page fetch against the paged vendor: items accumulated, no next
cursor, the walk ends with exactly this one request added. -/
theorem orgsWalk_pages_last (url : List Char) (items acc : List JVal)
    (rq : List Request) (sl : List Rat) :
    orgsWalk pagesSrv 1 (some url) acc ⟨[items], rq, sl⟩ =
      (.ok (some (acc ++ items)), ⟨[], rq ++ [⟨getM, url, none⟩], sl⟩) := rfl

/-- Intermediate page fetch against the paged vendor: items accumulated,
walk continues on the served cursor, one request and the throttle sleep
added. -/
theorem orgsWalk_pages_step (k : Nat) (url : List Char) (items : List JVal)
    (r : List JVal) (rs : List (List JVal)) (acc : List JVal)
    (rq : List Request) (sl : List Rat) :
    orgsWalk pagesSrv (k + 1) (some url) acc ⟨items :: r :: rs, rq, sl⟩ =
      orgsWalk pagesSrv k (some pagesNextUrl) (acc ++ items)
        ⟨r :: rs, rq ++ [⟨getM, url, none⟩], sl ++ [throttleDelay]⟩ := rfl

/-- Draining a nonempty page sequence: the walk returns the accumulator
followed by the concatenation of all pages in order, making exactly one
request per page. -/
theorem orgsWalk_pagesSrv_drain (rest : List (List JVal)) :
    ∀ (items : List JVal) (url : List Char) (acc : List JVal)
      (rq : List Request) (sl : List Rat),
      (orgsWalk pagesSrv (rest.length + 1) (some url) acc ⟨items :: rest, rq, sl⟩).1 =
        .ok (some (acc ++ (items :: rest).join)) ∧
      (orgsWalk pagesSrv (rest.length + 1) (some url) acc ⟨items :: rest, rq, sl⟩).2.reqs.length =
        rq.length + (rest.length + 1) := by
  induction rest with
  | nil =>
    intro items url acc rq sl
    constructor
    · show (orgsWalk pagesSrv 1 (some url) acc ⟨[items], rq, sl⟩).1 = _
      rw [orgsWalk_pages_last]
      simp
    · show (orgsWalk pagesSrv 1 (some url) acc ⟨[items], rq, sl⟩).2.reqs.length = _
      rw [orgsWalk_pages_last]
      simp
  | cons r rs ih =>
    intro items url acc rq sl
    rw [orgsWalk_pages_step]
    simp only [List.length_cons]
    rcases ih r pagesNextUrl (acc ++ items) (rq ++ [⟨getM, url, none⟩]) (sl ++ [throttleDelay])
      with ⟨h1, h2⟩
    constructor
    · rw [h1]
      simp
    · rw [h2]
      simp
      omega

/-- Claim C4 (counterexample): a single page terminated by an absent
next-cursor is drained with exactly one request — not two (`N + 1` for
`N = 1`) — while returning exactly the page's items in order. -/
theorem c4_counterexample :
    (orgsWalk pagesSrv 1 (some (orgsSeedUrl gid0)) [] (initSt [[orgA, orgB]])).1 =
      .ok (some [orgA, orgB]) ∧
    (orgsWalk pagesSrv 1 (some (orgsSeedUrl gid0)) [] (initSt [[orgA, orgB]])).2.reqs.length = 1 ∧
    ¬ ((orgsWalk pagesSrv 1 (some (orgsSeedUrl gid0)) []
        (initSt [[orgA, orgB]])).2.reqs.length = 1 + 1) := by
  refine ⟨rfl, rfl, ?_⟩
  rw [show (orgsWalk pagesSrv 1 (some (orgsSeedUrl gid0)) []
    (initSt [[orgA, orgB]])).2.reqs.length = 1 from rfl]
  omega

/-- Claim C4 (amended): for any finite nonempty sequence of N pages
terminated by an absent next-cursor, the walker returns exactly the
concatenation of all pages' items in server order and makes exactly N
requests — one per page, with no trailing request after the final page. -/
theorem c4_amended (pages : List (List JVal)) (h : pages ≠ []) :
    ∀ (url : List Char) (acc : List JVal) (rq : List Request) (sl : List Rat),
      (orgsWalk pagesSrv pages.length (some url) acc ⟨pages, rq, sl⟩).1 =
        .ok (some (acc ++ pages.join)) ∧
      (orgsWalk pagesSrv pages.length (some url) acc ⟨pages, rq, sl⟩).2.reqs.length =
        rq.length + pages.length := by
  cases pages with
  | nil => exact absurd rfl h
  | cons items rest =>
    intro url acc rq sl
    exact orgsWalk_pagesSrv_drain rest items url acc rq sl

/-- Witness for C4 at a concrete two-page listing. -/
theorem c4_witness :
    ([[orgA], [orgB]] : List (List JVal)) ≠ [] ∧
    ((orgsWalk pagesSrv ([[orgA], [orgB]] : List (List JVal)).length (some (orgsSeedUrl gid0))
        [] ⟨[[orgA], [orgB]], [], []⟩).1 =
      .ok (some ([] ++ ([[orgA], [orgB]] : List (List JVal)).join)) ∧
     (orgsWalk pagesSrv ([[orgA], [orgB]] : List (List JVal)).length (some (orgsSeedUrl gid0))
        [] ⟨[[orgA], [orgB]], [], []⟩).2.reqs.length =
      ([] : List Request).length + ([[orgA], [orgB]] : List (List JVal)).length) :=
  ⟨by simp, c4_amended [[orgA], [orgB]] (by simp) (orgsSeedUrl gid0) [] [] []⟩

/-- Unfolding of the Except-monad bind on a success. -/
theorem exc_bind_ok (a : α) (f : α → Except PyErr β) :
    (Except.ok a >>= f) = f a := rfl

/-- Unfolding of the Except-monad bind on an error. -/
theorem exc_bind_err (e : PyErr) (f : α → Except PyErr β) :
    ((Except.error e : Except PyErr α) >>= f) = Except.error e := rfl

/-- Unfolding of the Except-monad pure. -/
theorem exc_pure (a : α) : (pure a : Except PyErr α) = Except.ok a := rfl

/-- Lemma: `pyGet` either succeeds or raises exactly `AttributeError`. -/
theorem pyGet_classify (x : JVal) (k : List Char) (d : JVal) :
    (∃ v, pyGet x k d = .ok v) ∨ pyGet x k d = .error PyErr.attrError := by
  cases x with
  | jobj fs =>
    cases h : fs.lookup k with
    | some v => exact Or.inl ⟨v, by simp [pyGet, h]⟩
    | none => exact Or.inl ⟨d, by simp [pyGet, h]⟩
  | jnull => exact Or.inr rfl
  | jbool b => exact Or.inr rfl
  | jstr s => exact Or.inr rfl
  | jnum n => exact Or.inr rfl
  | jarr xs => exact Or.inr rfl

/-- Joining one error item either succeeds or raises `AttributeError`. -/
theorem errJoinOne_classify (err : JVal) :
    (∃ s, errJoinOne err = .ok s) ∨ errJoinOne err = .error PyErr.attrError := by
  unfold errJoinOne
  rcases pyGet_classify err detailKey (.jstr unknownErrStr) with ⟨v, hv⟩ | hv <;> rw [hv]
  · rw [exc_bind_ok]
    rcases pyGet_classify err statusKey (.jstr naStr) with ⟨w, hw⟩ | hw <;> rw [hw]
    · rw [exc_bind_ok]
      exact Or.inl ⟨_, rfl⟩
    · rw [exc_bind_err]
      exact Or.inr rfl
  · rw [exc_bind_err]
    exact Or.inr rfl

/-- Joining an error list either succeeds or raises `AttributeError`. -/
theorem joinErrs_classify (l : List JVal) :
    (∃ s, joinErrs l = .ok s) ∨ joinErrs l = .error PyErr.attrError := by
  induction l with
  | nil => exact Or.inl ⟨[], rfl⟩
  | cons e rest ih =>
    cases rest with
    | nil => exact errJoinOne_classify e
    | cons r rs =>
      rcases errJoinOne_classify e with ⟨a, ha⟩ | ha
      · rcases ih with ⟨b, hb⟩ | hb
        · exact Or.inl ⟨a ++ ("; ").data ++ b,
            by simp [joinErrs, ha, hb, exc_bind_ok, exc_pure]⟩
        · exact Or.inr (by simp [joinErrs, ha, hb, exc_bind_ok, exc_bind_err])
      · exact Or.inr (by simp [joinErrs, ha, exc_bind_err])

/-- Lemma: `_handle_response` yields a parsed body, raises a `SnykAPIError`
(including its rate-limit subclass), or raises `AttributeError` (the
latter only while digging details out of an ill-shaped error body). -/
theorem handleResponse_classify (r : HttpResponse) :
    (∃ j, handleResponse r = .ok j) ∨
    (∃ m s rl, handleResponse r = .error (.snyk m s rl)) ∨
    handleResponse r = .error PyErr.attrError := by
  unfold handleResponse
  by_cases h1 : 400 ≤ r.status ∧ r.status < 600
  · rw [if_pos h1]
    by_cases h2 : (r.status == 429) = true
    · rw [if_pos h2]
      exact Or.inr (Or.inl ⟨_, _, _, rfl⟩)
    · rw [if_neg h2]
      cases hb : r.body with
      | none => exact Or.inr (Or.inl ⟨_, _, _, rfl⟩)
      | some errData =>
        dsimp only
        rcases pyGet_classify errData messageKey (.jstr (httpErrText r.status))
          with ⟨m, hm⟩ | hm <;> rw [hm]
        · rw [exc_bind_ok]
          cases hk : errData.getKey errorsKey with
          | none => exact Or.inr (Or.inl ⟨_, _, _, rfl⟩)
          | some v =>
            cases v with
            | jarr errs =>
              dsimp only
              rcases joinErrs_classify errs with ⟨s, hs⟩ | hs <;> rw [hs]
              · rw [exc_bind_ok]
                exact Or.inr (Or.inl ⟨_, _, _, rfl⟩)
              · rw [exc_bind_err]
                exact Or.inr (Or.inr rfl)
            | jnull => exact Or.inr (Or.inl ⟨_, _, _, rfl⟩)
            | jbool b => exact Or.inr (Or.inl ⟨_, _, _, rfl⟩)
            | jstr s => exact Or.inr (Or.inl ⟨_, _, _, rfl⟩)
            | jnum n => exact Or.inr (Or.inl ⟨_, _, _, rfl⟩)
            | jobj fs => exact Or.inr (Or.inl ⟨_, _, _, rfl⟩)
        · rw [exc_bind_err]
          exact Or.inr (Or.inr rfl)
  · rw [if_neg h1]
    by_cases h2 : (r.status == 204) = true
    · rw [if_pos h2]
      exact Or.inl ⟨none, rfl⟩
    · rw [if_neg h2]
      cases hb : r.body with
      | some j => exact Or.inl ⟨some j, rfl⟩
      | none => exact Or.inr (Or.inl ⟨_, _, _, rfl⟩)

/-- Unfolding of the last transport attempt. -/
theorem mrLoop_zero_eq (srv : Server σ) (method url : List Char) (p : Option JVal)
    (mr rd : Nat) (st : St σ) :
    mrLoop srv method url p mr 0 rd st =
      (match (srv st.srvState ⟨method, url, p⟩).1 with
        | NetOutcome.resp r => Except.ok r
        | NetOutcome.connError e => Except.error (PyErr.snyk (connFailMsg mr e) none false)
        | NetOutcome.reqError e => Except.error (PyErr.snyk (reqFailMsg mr e) none false),
       (⟨(srv st.srvState ⟨method, url, p⟩).2, st.reqs ++ [⟨method, url, p⟩],
         st.sleeps⟩ : St σ)) := rfl

/-- Unfolding of a transport attempt with retries left. -/
theorem mrLoop_succ_eq (srv : Server σ) (method url : List Char) (p : Option JVal)
    (mr n rd : Nat) (st : St σ) :
    mrLoop srv method url p mr (n + 1) rd st =
      match (srv st.srvState ⟨method, url, p⟩).1 with
      | NetOutcome.resp r =>
        if r.status == 429 then
          mrLoop srv method url p mr n (rd * 2)
            ⟨(srv st.srvState ⟨method, url, p⟩).2, st.reqs ++ [⟨method, url, p⟩],
              st.sleeps ++ [((r.retryAfter.getD rd : Nat) : Rat)]⟩
        else (Except.ok r,
          ⟨(srv st.srvState ⟨method, url, p⟩).2, st.reqs ++ [⟨method, url, p⟩], st.sleeps⟩)
      | NetOutcome.connError _e =>
        mrLoop srv method url p mr n (rd * 2)
          ⟨(srv st.srvState ⟨method, url, p⟩).2, st.reqs ++ [⟨method, url, p⟩],
            st.sleeps ++ [((rd : Nat) : Rat)]⟩
      | NetOutcome.reqError _e =>
        mrLoop srv method url p mr n (rd * 2)
          ⟨(srv st.srvState ⟨method, url, p⟩).2, st.reqs ++ [⟨method, url, p⟩],
            st.sleeps ++ [((rd : Nat) : Rat)]⟩ := rfl

/-- The transport either returns a response or raises a plain
`SnykAPIError` (never a rate-limit error — a final 429 is returned as a
response — and never a Python builtin exception). -/
theorem mrLoop_classify (srv : Server σ) (method url : List Char) (p : Option JVal)
    (mr : Nat) :
    ∀ (rem rd : Nat) (st : St σ),
      (∃ r st1, mrLoop srv method url p mr rem rd st = (.ok r, st1)) ∨
      (∃ msg st1, mrLoop srv method url p mr rem rd st =
        (.error (.snyk msg none false), st1)) := by
  intro rem
  induction rem with
  | zero =>
    intro rd st
    rw [mrLoop_zero_eq]
    cases hsrv : (srv st.srvState ⟨method, url, p⟩).1 with
    | resp r => exact Or.inl ⟨r, _, rfl⟩
    | connError e => exact Or.inr ⟨connFailMsg mr e, _, rfl⟩
    | reqError e => exact Or.inr ⟨reqFailMsg mr e, _, rfl⟩
  | succ n ih =>
    intro rd st
    rw [mrLoop_succ_eq]
    cases hsrv : (srv st.srvState ⟨method, url, p⟩).1 with
    | resp r =>
      dsimp only
      by_cases h429 : (r.status == 429) = true
      · rw [if_pos h429]
        exact ih (rd * 2) _
      · rw [if_neg h429]
        exact Or.inl ⟨r, _, rfl⟩
    | connError e => exact ih (rd * 2) _
    | reqError e => exact ih (rd * 2) _

/-- The pure settings extraction yields the three-key record, or raises a
`SnykAPIError`, or raises `AttributeError`. -/
theorem settingsFromResponse_classify (r : HttpResponse) :
    (∃ a b c, settingsFromResponse r = .ok [(seKey, a), (safKey, b), (safpKey, c)]) ∨
    (∃ m s rl, settingsFromResponse r = .error (.snyk m s rl)) ∨
    settingsFromResponse r = .error PyErr.attrError := by
  unfold settingsFromResponse
  rcases handleResponse_classify r with ⟨j, hj⟩ | ⟨m, s, rl, hj⟩ | hj <;> rw [hj]
  · rw [exc_bind_ok]
    cases j with
    | none => exact Or.inr (Or.inr rfl)
    | some jv =>
      dsimp only
      rw [exc_bind_ok]
      rcases pyGet_classify jv dataKey (.jobj []) with ⟨dv, hd⟩ | hd <;> rw [hd]
      · rw [exc_bind_ok]
        rcases pyGet_classify dv attrKey (.jobj []) with ⟨av, ha⟩ | ha <;> rw [ha]
        · rw [exc_bind_ok]
          rcases pyGet_classify av seKey (.jbool false) with ⟨v1, h1⟩ | h1 <;> rw [h1]
          · rw [exc_bind_ok]
            rcases pyGet_classify av safKey (.jbool false) with ⟨v2, h2⟩ | h2 <;> rw [h2]
            · rw [exc_bind_ok]
              rcases pyGet_classify av safpKey (.jbool false) with ⟨v3, h3⟩ | h3 <;> rw [h3]
              · rw [exc_bind_ok]
                exact Or.inl ⟨v1, v2, v3, rfl⟩
              · rw [exc_bind_err]
                exact Or.inr (Or.inr rfl)
            · rw [exc_bind_err]
              exact Or.inr (Or.inr rfl)
          · rw [exc_bind_err]
            exact Or.inr (Or.inr rfl)
        · rw [exc_bind_err]
          exact Or.inr (Or.inr rfl)
      · rw [exc_bind_err]
        exact Or.inr (Or.inr rfl)
  · rw [exc_bind_err]
    exact Or.inr (Or.inl ⟨m, s, rl, rfl⟩)
  · rw [exc_bind_err]
    exact Or.inr (Or.inr rfl)

/-- Lemma: `get_sast_settings` never lets a `SnykAPIError` escape: it returns the
fallback record, returns the three-key record, or raises `AttributeError`
(the Python builtin the code does not catch). -/
theorem getSastSettings_classify (srv : Server σ) (oid : List Char) (st : St σ) :
    (∃ st1, getSastSettings srv oid st = (.ok fallbackSastSettings, st1)) ∨
    (∃ a b c st1, getSastSettings srv oid st =
      (.ok [(seKey, a), (safKey, b), (safpKey, c)], st1)) ∨
    (∃ st1, getSastSettings srv oid st = (.error PyErr.attrError, st1)) := by
  unfold getSastSettings
  rcases mrLoop_classify srv getM (settingsUrl oid) none 3 3 1 st
    with ⟨r, st1, h⟩ | ⟨msg, st1, h⟩
  · rw [show makeRequest srv getM (settingsUrl oid) none st = (.ok r, st1) from h]
    dsimp only
    by_cases h404 : (r.status == 404) = true
    · rw [if_pos h404]
      exact Or.inl ⟨st1, rfl⟩
    · rw [if_neg h404]
      rcases settingsFromResponse_classify r with ⟨a, b, c, hs⟩ | ⟨m, s, rl, hs⟩ | hs <;> rw [hs]
      · exact Or.inr (Or.inl ⟨a, b, c, st1, rfl⟩)
      · exact Or.inl ⟨st1, rfl⟩
      · exact Or.inr (Or.inr ⟨st1, rfl⟩)
  · rw [show makeRequest srv getM (settingsUrl oid) none st =
      (.error (.snyk msg none false), st1) from h]
    exact Or.inl ⟨st1, rfl⟩

/-- Claim C6 (counterexample): a vendor answering 204 No Content makes
`get_sast_settings` raise an uncaught `AttributeError` (the `None.get`
call on the empty-body result) instead of returning a settings record —
so the operation does not hold "never raises" over all vendor
responses. -/
theorem c6_counterexample :
    (getSastSettings srv204 oid0 (initSt ())).1 = .error PyErr.attrError ∧
    (getSastSettings srv204 oid0 (initSt ())).2.reqs.length = 1 :=
  ⟨rfl, rfl⟩

/-- Claim C6 (amended): `get_sast_settings` never lets a `SnykAPIError`
escape — for every vendor behavior it either returns a settings record or
raises the uncaught Python `AttributeError` (reachable only when a
success response carries no JSON-object body, e.g. 204 No Content); on a
404 response and on any `SnykAPIError` failure (e.g. exhausted connection
retries) it returns the fallback record with `sast_enabled = false`. -/
theorem c6_amended :
    (∀ (σ : Type) (srv : Server σ) (oid : List Char) (st : St σ),
      (∃ m st1, getSastSettings srv oid st = (.ok m, st1)) ∨
      (∃ st1, getSastSettings srv oid st = (.error PyErr.attrError, st1))) ∧
    (getSastSettings srv404 oid0 (initSt ())).1 = .ok fallbackSastSettings ∧
    (getSastSettings srvConnFail oid0 (initSt ())).1 = .ok fallbackSastSettings := by
  refine ⟨?_, rfl, rfl⟩
  intro σ srv oid st
  rcases getSastSettings_classify srv oid st with ⟨st1, h⟩ | ⟨a, b, c, st1, h⟩ | ⟨st1, h⟩
  · exact Or.inl ⟨fallbackSastSettings, st1, h⟩
  · exact Or.inl ⟨[(seKey, a), (safKey, b), (safpKey, c)], st1, h⟩
  · exact Or.inr ⟨st1, h⟩

/-- Claim C10 (confirmed): whenever `get_sast_settings` returns, the
returned mapping is either exactly the single-key fallback
`{"sast_enabled": False}` (the 404 and fetch-failure paths) or carries
exactly the three keys `sast_enabled`, `sast_autofix_enabled`,
`sast_autofix_pr_enabled` in that order (the successful-fetch path); the
three scripted vendors below exhibit each path. -/
theorem c10_settings_keys :
    (∀ (σ : Type) (srv : Server σ) (oid : List Char) (st : St σ)
        (m : List (List Char × JVal)) (st1 : St σ),
      getSastSettings srv oid st = (.ok m, st1) →
      m.map Prod.fst = [seKey] ∨ m.map Prod.fst = [seKey, safKey, safpKey]) ∧
    (getSastSettings srvSettingsOk oid0 (initSt ())).1 =
      .ok [(seKey, .jbool true), (safKey, .jbool false), (safpKey, .jbool false)] ∧
    (getSastSettings srv404 oid0 (initSt ())).1 = .ok [(seKey, .jbool false)] ∧
    (getSastSettings srvConnFail oid0 (initSt ())).1 = .ok [(seKey, .jbool false)] := by
  refine ⟨?_, rfl, rfl, rfl⟩
  intro σ srv oid st m st1 h
  rcases getSastSettings_classify srv oid st with ⟨s1, h1⟩ | ⟨a, b, c, s1, h1⟩ | ⟨s1, h1⟩
  · rw [h] at h1
    have hm : m = fallbackSastSettings := by
      have := congrArg Prod.fst h1
      simpa using this
    rw [hm]
    exact Or.inl rfl
  · rw [h] at h1
    have hm : m = [(seKey, a), (safKey, b), (safpKey, c)] := by
      have := congrArg Prod.fst h1
      simpa using this
    rw [hm]
    exact Or.inr rfl
  · rw [h] at h1
    exact absurd (congrArg Prod.fst h1) (by simp)

/-- Witness for C10 at the 404 vendor. -/
theorem c10_witness :
    getSastSettings srv404 oid0 (initSt ()) =
      (.ok fallbackSastSettings, (getSastSettings srv404 oid0 (initSt ())).2) ∧
    (fallbackSastSettings.map Prod.fst = [seKey] ∨
     fallbackSastSettings.map Prod.fst = [seKey, safKey, safpKey]) :=
  ⟨rfl, c10_settings_keys.1 Unit srv404 oid0 (initSt ()) fallbackSastSettings
    (getSastSettings srv404 oid0 (initSt ())).2 rfl⟩

/-- The combined PATCH-outcome observer: the two disjunct observers fused
into the single case analysis they partition. -/
theorem patch_obs (srv : Server σ) (oid : List Char) (st : St σ) :
    (patch2xxB srv oid st || patchMatchB srv oid st) =
      (match (patchRun srv oid st).1 with
       | .ok r => successCodes.contains r.status
       | .error (.snyk m _ _) => textMatchEnable m
       | .error _ => false) := by
  rw [patch2xxB, patchMatchB]
  rcases h : (patchRun srv oid st).1 with e | r
  · cases e <;> simp
  · simp

/-- When the enable-PATCH section returns a boolean, that boolean is
determined by the transport outcome of the PATCH: acceptance of the
status for a response, the "already enabled" text match for a raised
`SnykAPIError`. -/
theorem enableSastPatch_ok_val (srv : Server σ) (oid : List Char) (stA : St σ)
    (b : Bool) (st1 : St σ)
    (h : enableSastPatch srv oid stA = (.ok b, st1)) :
    b = (match (makeRequest srv patchM (settingsUrl oid) (some (enablePayload oid)) stA).1 with
         | .ok r => successCodes.contains r.status
         | .error (.snyk m _ _) => textMatchEnable m
         | .error _ => false) := by
  unfold enableSastPatch at h
  rcases hmk : makeRequest srv patchM (settingsUrl oid) (some (enablePayload oid)) stA
    with ⟨res, stB⟩
  rw [hmk] at h
  dsimp only at h ⊢
  cases res with
  | error e =>
    cases e with
    | snyk m s rl =>
      dsimp only at h ⊢
      have := congrArg Prod.fst h
      simpa using this.symm
    | attrError => exact absurd (congrArg Prod.fst h) (by simp)
    | typeError => exact absurd (congrArg Prod.fst h) (by simp)
    | keyError => exact absurd (congrArg Prod.fst h) (by simp)
    | indexError => exact absurd (congrArg Prod.fst h) (by simp)
    | valueError s => exact absurd (congrArg Prod.fst h) (by simp)
  | ok r =>
    dsimp only at h ⊢
    by_cases hs : (successCodes.contains r.status) = true
    · rw [if_pos hs] at h
      rw [hs]
      cases hc : echoCheck (r.body.getD (.jobj [])) (.jbool false) with
      | ok v =>
        rw [hc] at h
        have := congrArg Prod.fst h
        simpa using this.symm
      | error e =>
        rw [hc] at h
        exact absurd (congrArg Prod.fst h) (by simp)
    · rw [if_neg hs] at h
      rw [Bool.not_eq_true] at hs
      rw [hs]
      have := congrArg Prod.fst h
      simpa using this.symm

/-- Claim C9 (counterexample): a PATCH answered 409 with vendor detail
"SAST is already enabled" — an error whose text matches the
"already enabled" pattern — is reported as failure (`False`), not treated
as success: the text matching applies only to raised transport
`SnykAPIError`s, never to vendor detail carried by a non-2xx response. -/
theorem c9_counterexample :
    (enableSast srv409 oid0 nm0 (initSt 0)).1 = .ok false ∧
    patchErrorMsg resp409 = alreadyDetail ∧
    textMatchEnable alreadyDetail = true :=
  ⟨rfl, rfl, rfl⟩

/-- Claim C9 (amended): whenever `enable_sast` returns a boolean, that
boolean is `true` exactly when the pre-check read reported SAST already
enabled, or the PATCH response carried an accepted status (200/201/204),
or the PATCH raised a `SnykAPIError` whose lowercased text contains
"already enabled" or "is enabled"; in every other completed case it
returns `false` (a failure is never silently converted into success).  A
non-2xx response is always reported as failure even when its vendor
detail matches the patterns; that detail is extracted for reporting by
the `errors[0].detail` chain, as the second part states. -/
theorem c9_amended :
    (∀ (σ : Type) (srv : Server σ) (st : St σ) (oid nm : List Char) (b : Bool) (st1 : St σ),
      enableSast srv oid nm st = (.ok b, st1) →
      b = (preFlagB srv oid st || (patch2xxB srv oid st || patchMatchB srv oid st))) ∧
    (∀ (r : HttpResponse) (d : List Char) (restFields : List (List Char × JVal))
        (restItems : List JVal),
      r.body = some (.jobj [(errorsKey,
        .jarr (.jobj ((detailKey, .jstr d) :: restFields) :: restItems))]) →
      patchErrorMsg r = d) := by
  constructor
  · intro σ srv st oid nm b st1 h
    unfold enableSast at h
    rcases hpre : getSastSettings srv oid st with ⟨pres, stA⟩
    rw [hpre] at h
    have hAfter : afterPre srv oid st = stA := by
      rw [afterPre, hpre]
    have hpr : patchRun srv oid st =
        makeRequest srv patchM (settingsUrl oid) (some (enablePayload oid)) stA := by
      rw [patchRun, hAfter]
    cases pres with
    | ok cur =>
      dsimp only at h
      have hflag : preFlagB srv oid st = truthy (dictGetD cur seKey (.jbool false)) := by
        rw [preFlagB, hpre]
      by_cases ht : truthy (dictGetD cur seKey (.jbool false)) = true
      · rw [if_pos ht] at h
        have hb : b = true := by
          have := congrArg Prod.fst h
          simpa using this.symm
        rw [hb, hflag, ht]
        simp
      · rw [if_neg ht] at h
        rw [Bool.not_eq_true] at ht
        rw [hflag, ht, Bool.false_or, patch_obs, hpr]
        exact enableSastPatch_ok_val srv oid stA b st1 h
    | error e =>
      cases e with
      | snyk m s rl =>
        dsimp only at h
        have hflag : preFlagB srv oid st = false := by
          rw [preFlagB, hpre]
        rw [hflag, Bool.false_or, patch_obs, hpr]
        exact enableSastPatch_ok_val srv oid stA b st1 h
      | attrError => exact absurd (congrArg Prod.fst h) (by simp)
      | typeError => exact absurd (congrArg Prod.fst h) (by simp)
      | keyError => exact absurd (congrArg Prod.fst h) (by simp)
      | indexError => exact absurd (congrArg Prod.fst h) (by simp)
      | valueError s => exact absurd (congrArg Prod.fst h) (by simp)
  · intro r d restFields restItems hb
    unfold patchErrorMsg patchErrorMsgE
    rw [hb]
    rfl

/-- Witness for C9: the toggle scenario instantiates the result
characterization (the PATCH succeeded with 200, so the result is `true`),
and the 409 response instantiates the detail extraction. -/
theorem c9_witness :
    enableSast toggleSrv oid0 nm0 (initSt false) =
      (.ok true, (enableSast toggleSrv oid0 nm0 (initSt false)).2) ∧
    true = (preFlagB toggleSrv oid0 (initSt false) ||
      (patch2xxB toggleSrv oid0 (initSt false) || patchMatchB toggleSrv oid0 (initSt false))) ∧
    resp409.body = some (.jobj [(errorsKey,
      .jarr (.jobj ((detailKey, .jstr alreadyDetail) :: [(statusKey, .jstr ("409").data)])
        :: []))]) ∧
    patchErrorMsg resp409 = alreadyDetail :=
  ⟨rfl,
   c9_amended.1 Bool toggleSrv (initSt false) oid0 nm0 true
     (enableSast toggleSrv oid0 nm0 (initSt false)).2 rfl,
   rfl,
   c9_amended.2 resp409 alreadyDetail [(statusKey, .jstr ("409").data)] [] rfl⟩
